import Mathlib

/-!
Verification of the lifecycle-hook layer of the `dityaaa/framework`
template build pipeline.

The repository ships the hook surface as a TypeScript declaration file
(`src/types/events.d.ts`).  We embed that declaration shallowly: the
`Config` value is an opaque structured mapping, a `Promise<T>` collapses
to `T` (the dispatcher awaits every callback, treating synchronous and
asynchronous callbacks uniformly), and each optional interface key
becomes an `Option` field.
-/

/-- `Config` (imported by `events.d.ts` from `./config`): an opaque
structured mapping of environment/template settings.  Its internal shape
is irrelevant to the hook layer; we model it as an association list so
everything stays executable. -/
structure Config where
  data : List (String × String)
deriving DecidableEq, Repr

/-- `type PostHTMLType = (html: string, config: Config) => { html: string; config: Config }`
(`events.d.ts`, line 3): one pass through the external HTML processor. -/
def PostHTMLType : Type := String → Config → String × Config

/-- The five lifecycle points named by the keys of the `Events`
interface in `events.d.ts`. -/
inductive HookPoint where
  | beforeCreate
  | beforeRender
  | afterRender
  | afterTransformers
  | afterBuild
deriving DecidableEq, Repr

/-- The list of all hook points, in pipeline order. -/
def allHookPoints : List HookPoint :=
  [.beforeCreate, .beforeRender, .afterRender, .afterTransformers, .afterBuild]

/-- Parameter object of `beforeCreate`: `params: { config: Config }`
(`events.d.ts`, line 21). -/
structure CreateParams where
  config : Config

/-- Parameter object of the three render-scoped hooks
(`events.d.ts`, lines 40-60, 79-99, 118-138):
`{ html: string; matter: { [key: string]: string }; config: Config; posthtml: PostHTMLType }`.
The front-matter mapping of string keys to string values is embedded as
an association list. -/
structure RenderParams where
  html : String
  matter : List (String × String)
  config : Config
  posthtml : PostHTMLType

/-- Parameter object of `afterBuild`:
`params: { files: string[]; config: Config }` (`events.d.ts`,
lines 155-164). -/
structure BuildParams where
  files : List String
  config : Config

/-- The `Events` interface of `events.d.ts`: one optional callback per
lifecycle point.  Return types follow the declaration:
`beforeCreate` returns `void | Promise<void>` (here `Unit`), every other
point returns `string | Promise<string>` (here `String`). -/
structure Events where
  beforeCreate : Option (CreateParams → Unit)
  beforeRender : Option (RenderParams → String)
  afterRender : Option (RenderParams → String)
  afterTransformers : Option (RenderParams → String)
  afterBuild : Option (BuildParams → String)

/-- The declared parameter type of each hook point, read off the
`Events` interface. -/
def ParamsOf : HookPoint → Type
  | .beforeCreate => CreateParams
  | .beforeRender => RenderParams
  | .afterRender => RenderParams
  | .afterTransformers => RenderParams
  | .afterBuild => BuildParams

/-- The declared (awaited) return type of each hook point, read off the
`Events` interface: `void` for `beforeCreate`, `string` elsewhere. -/
def RetOf : HookPoint → Type
  | .beforeCreate => Unit
  | _ => String

/-- Look up the callback bound to a hook point in an `Events` object:
each key is either absent or bound to a single callable. -/
def Events.get (e : Events) : (p : HookPoint) → Option (ParamsOf p → RetOf p)
  | .beforeCreate => e.beforeCreate
  | .beforeRender => e.beforeRender
  | .afterRender => e.afterRender
  | .afterTransformers => e.afterTransformers
  | .afterBuild => e.afterBuild

/-- Tags for the candidate expected-return shapes discussed for the hook
points: no value (`void`), a string, or a `Config` value. -/
inductive ExpectedRet where
  | voidRet
  | stringRet
  | configRet
deriving DecidableEq, Repr

/-- The declared return shape of each hook point, read off the callback
signatures in `events.d.ts`: `beforeCreate` is declared
`=> void | Promise<void>`, every other point
`=> string | Promise<string>`. -/
def declaredReturn : HookPoint → ExpectedRet
  | .beforeCreate => .voidRet
  | _ => .stringRet

/-- Whether a hook point is render-scoped (`beforeRender`,
`afterRender`, `afterTransformers`). -/
def renderScoped : HookPoint → Bool
  | .beforeRender => true
  | .afterRender => true
  | .afterTransformers => true
  | _ => false

/-!
The hook dispatcher itself is not shipped under `src/` (only its
registration surface, the `Events` declaration, is).  The definitions
below model it dynamically: a runtime value a callback may resolve with,
the point-specific payload, the registry, and `dispatch`.
-/

/-- Modelled from the spec: a runtime value a hook callback can resolve
with — a string, a `Config`, a file list, no value (`undefined`), or
some other runtime value (tagged by a label so distinct wrong-shape
values stay distinct). -/
inductive Value where
  | vstr : String → Value
  | vconfig : Config → Value
  | vfiles : List String → Value
  | vundefined : Value
  | vother : String → Value
deriving DecidableEq, Repr

/-- Modelled from the spec: the point-specific payload handed to a
callback — `{config}` at `beforeCreate`, `{html, matter, config,
posthtml}` at the render-scoped points, `{files, config}` at
`afterBuild`. -/
inductive Payload where
  | createP : CreateParams → Payload
  | renderP : RenderParams → Payload
  | buildP : BuildParams → Payload

/-- Modelled from the spec: the primary value of a payload — the config
at `beforeCreate`, the HTML string at the render-scoped points, the
file list at `afterBuild`. -/
def primaryValue : Payload → Value
  | .createP cp => .vconfig cp.config
  | .renderP rp => .vstr rp.html
  | .buildP bp => .vfiles bp.files

/-- Modelled from the spec: how a callback invocation settles — it
raises/rejects with a cause, or resolves with a runtime value
(resolving with `undefined` is `resolves .vundefined`). -/
inductive CallbackOutcome where
  | raises : String → CallbackOutcome
  | resolves : Value → CallbackOutcome
deriving DecidableEq, Repr

/-- Modelled from the spec: a registered hook, viewed dynamically by the
dispatcher as a function from the payload to how it settles. -/
def Hook : Type := Payload → CallbackOutcome

/-- Modelled from the spec (§4.1): the hook registry holds zero-or-one
callback per lifecycle point. -/
structure Registry where
  hooks : HookPoint → Option Hook

/-- `get(point)`: returns the callback or absent; no side effects. -/
def Registry.get (r : Registry) (p : HookPoint) : Option Hook :=
  r.hooks p

/-- Modelled from the spec (§7): dispatch failures.
`HookExecutionError` carries the point and the cause of the rejection;
`HookContractError` marks a wrong-shape return. -/
inductive HookError where
  | hookExecutionError : HookPoint → String → HookError
  | hookContractError : HookPoint → HookError
deriving DecidableEq, Repr

/-- Modelled from the spec (§4.2, steps 3-5): merge a resolved value
into the pipeline.  At a render-scoped point a resolved string replaces
the HTML, no value falls back to the original primary value, and any
other shape is a `HookContractError`.  At `beforeCreate` the hook is
informational and at `afterBuild` the return is ignored, so the primary
value is carried forward unchanged. -/
def mergeResult (point : HookPoint) (payload : Payload) (v : Value) :
    Except HookError Value :=
  if renderScoped point then
    match v with
    | .vundefined => .ok (primaryValue payload)
    | .vstr s => .ok (.vstr s)
    | _ => .error (.hookContractError point)
  else
    .ok (primaryValue payload)

/-- Modelled from the spec (§4.2): `dispatch(point, payload)`.  With no
registered callback it returns the primary value of the payload unchanged;
otherwise it awaits the callback, surfaces a `HookExecutionError` on
rejection, and merges a resolved value via `mergeResult`. -/
def dispatch (r : Registry) (point : HookPoint) (payload : Payload) :
    Except HookError Value :=
  match r.get point with
  | none => .ok (primaryValue payload)
  | some cb =>
    match cb payload with
    | .raises cause => .error (.hookExecutionError point cause)
    | .resolves v => mergeResult point payload v

/-! Concrete material used by the witness theorems. -/

/-- A sample configuration. -/
def cfg0 : Config := ⟨[("greenify", "true")]⟩

/-- A sample HTML-processor capability (the identity pass). -/
def posthtml0 : PostHTMLType := fun h c => (h, c)

/-- A sample render payload. -/
def rp0 : RenderParams := ⟨"<p>hi</p>", [("title", "Hello")], cfg0, posthtml0⟩

/-- A callback that runs purely for side effects and resolves with no
value. -/
def cbNoValue : Hook := fun _ => .resolves .vundefined

/-- A callback that always resolves with the replacement string
`"<REPLACED>"`. -/
def cbReplace : Hook := fun _ => .resolves (.vstr "<REPLACED>")

/-- A callback that resolves with a wrong-shape value (a `Config` where
a string is expected). -/
def cbWrong : Hook := fun _ => .resolves (.vconfig cfg0)

/-- A callback that resolves with some non-string runtime value. -/
def cbOther : Hook := fun _ => .resolves (.vother "42")

/-- A registry binding a single callback at a single point. -/
def regOnly (p : HookPoint) (cb : Hook) : Registry :=
  ⟨fun q => if q = p then some cb else none⟩

/-- The empty registry: no callback at any point. -/
def regEmpty : Registry := ⟨fun _ => none⟩

/-- A sample `beforeCreate` payload. -/
def cp0 : CreateParams := ⟨cfg0⟩

/-- A sample `afterBuild` payload, with the file list of the spec
example. -/
def bp0 : BuildParams := ⟨["dist/a.html", "dist/b.html"], cfg0⟩

/-- Claim C1: at every render-scoped hook point, a registered callback
that resolves with no value leaves the effective HTML equal to the
input HTML (no-op fallback). -/
theorem hook_render_undef_fallback (r : Registry) (p : HookPoint) (cb : Hook)
    (rp : RenderParams)
    (hs : renderScoped p = true)
    (hr : r.get p = some cb)
    (hc : cb (.renderP rp) = .resolves .vundefined) :
    dispatch r p (.renderP rp) = .ok (.vstr rp.html) := by
  simp [dispatch, hr, hc, mergeResult, hs, primaryValue]

/-- Witness for C1 at a concrete input: a side-effect-only callback at
`beforeRender` leaves the sample HTML unchanged. -/
theorem hook_render_undef_fallback_witness :
    dispatch (regOnly .beforeRender cbNoValue) .beforeRender (.renderP rp0) =
      .ok (.vstr rp0.html) :=
  hook_render_undef_fallback (regOnly .beforeRender cbNoValue) .beforeRender
    cbNoValue rp0 rfl rfl rfl

/-- Claim C2: whatever value an `afterBuild` callback resolves with,
dispatch carries the primary value (the file list) forward unchanged
and never fails on account of the returned value. -/
theorem hook_afterBuild_return_ignored (r : Registry) (cb : Hook)
    (bp : BuildParams) (v : Value)
    (hr : r.get .afterBuild = some cb)
    (hc : cb (.buildP bp) = .resolves v) :
    dispatch r .afterBuild (.buildP bp) = .ok (.vfiles bp.files) := by
  simp [dispatch, hr, hc, mergeResult, renderScoped, primaryValue]

/-- Witness for C2 at a concrete input: an `afterBuild` callback
resolving with a non-string runtime value is ignored. -/
theorem hook_afterBuild_return_ignored_witness :
    dispatch (regOnly .afterBuild cbOther) .afterBuild (.buildP bp0) =
      .ok (.vfiles bp0.files) :=
  hook_afterBuild_return_ignored (regOnly .afterBuild cbOther) cbOther bp0
    (.vother "42") rfl rfl

/-- Counterexample to claim C3 as stated: the declared return shape of
`beforeCreate` is not `Config`. -/
theorem hook_beforeCreate_not_config :
    ¬ declaredReturn .beforeCreate = .configRet := by
  decide

/-- Claim C3 (amended): a hook at `beforeCreate` is declared to produce
no value at all — its declared return type is `void`, not `Config`, so
there is no produced-value case whose type could be required to match
`Config`. -/
theorem hook_beforeCreate_void_return :
    declaredReturn .beforeCreate = .voidRet ∧ RetOf .beforeCreate = Unit :=
  ⟨rfl, rfl⟩

/-- Claim C4: the registration surface consists of exactly the five
hook points, each key optional — absent or bound to a single
callable — and no others. -/
theorem hook_surface_five_points :
    (∀ p : HookPoint, p ∈ allHookPoints) ∧
    allHookPoints.Nodup ∧
    allHookPoints.length = 5 ∧
    (∀ e : Events,
      e = ⟨e.beforeCreate, e.beforeRender, e.afterRender,
           e.afterTransformers, e.afterBuild⟩) ∧
    (∀ (e : Events) (p : HookPoint), e.get p = none ∨ ∃ cb, e.get p = some cb) := by
  refine ⟨fun p => ?_, by decide, rfl, fun e => rfl, fun e p => ?_⟩
  · cases p <;> simp [allHookPoints]
  · cases h : e.get p
    · exact Or.inl rfl
    · exact Or.inr ⟨_, rfl⟩

/-- Claim C5: every render-scoped hook receives a payload with exactly
the fields `html` (a string), `matter` (string-to-string mapping),
`config`, and the `posthtml` capability of type
`(html, config) -> (html, config)`. -/
theorem hook_render_payload_shape :
    ParamsOf .beforeRender = RenderParams ∧
    ParamsOf .afterRender = RenderParams ∧
    ParamsOf .afterTransformers = RenderParams ∧
    PostHTMLType = (String → Config → String × Config) ∧
    (∀ (h : String) (m : List (String × String)) (c : Config) (f : PostHTMLType),
      (RenderParams.mk h m c f).html = h ∧
      (RenderParams.mk h m c f).matter = m ∧
      (RenderParams.mk h m c f).config = c ∧
      (RenderParams.mk h m c f).posthtml = f) ∧
    (∀ rp : RenderParams, rp = ⟨rp.html, rp.matter, rp.config, rp.posthtml⟩) :=
  ⟨rfl, rfl, rfl, rfl, fun _ _ _ _ => ⟨rfl, rfl, rfl, rfl⟩, fun _ => rfl⟩

/-- Claim C6: at every render-scoped hook point, a registered callback
that resolves with a string S makes the effective HTML exactly S,
regardless of the input HTML. -/
theorem hook_render_string_replacement (r : Registry) (p : HookPoint)
    (cb : Hook) (rp : RenderParams) (s : String)
    (hs : renderScoped p = true)
    (hr : r.get p = some cb)
    (hc : cb (.renderP rp) = .resolves (.vstr s)) :
    dispatch r p (.renderP rp) = .ok (.vstr s) := by
  simp [dispatch, hr, hc, mergeResult, hs]

/-- Witness for C6 at a concrete input: a callback at `afterRender`
returning a fixed string overrides the sample HTML. -/
theorem hook_render_string_replacement_witness :
    dispatch (regOnly .afterRender cbReplace) .afterRender (.renderP rp0) =
      .ok (.vstr "<REPLACED>") :=
  hook_render_string_replacement (regOnly .afterRender cbReplace) .afterRender
    cbReplace rp0 "<REPLACED>" rfl rfl rfl

/-- Claim C7: at every hook point with no registered callback, dispatch
is the identity on the primary value of the payload. -/
theorem hook_unregistered_identity (r : Registry) (p : HookPoint)
    (payload : Payload)
    (hr : r.get p = none) :
    dispatch r p payload = .ok (primaryValue payload) := by
  simp [dispatch, hr]

/-- Witness for C7 at a concrete input: the empty registry at
`afterTransformers` leaves the sample payload untouched. -/
theorem hook_unregistered_identity_witness :
    dispatch regEmpty .afterTransformers (.renderP rp0) =
      .ok (primaryValue (.renderP rp0)) :=
  hook_unregistered_identity regEmpty .afterTransformers (.renderP rp0) rfl

/-- Claim C8: the `beforeCreate` payload contains only the config, its
declared return is void, and dispatch at `beforeCreate` carries the
config forward unchanged whatever the callback resolves with. -/
theorem hook_beforeCreate_informational (r : Registry) (cb : Hook)
    (cp : CreateParams) (v : Value)
    (hr : r.get .beforeCreate = some cb)
    (hc : cb (.createP cp) = .resolves v) :
    (∀ cp2 : CreateParams, cp2 = ⟨cp2.config⟩) ∧
    RetOf .beforeCreate = Unit ∧
    dispatch r .beforeCreate (.createP cp) = .ok (.vconfig cp.config) := by
  refine ⟨fun _ => rfl, rfl, ?_⟩
  simp [dispatch, hr, hc, mergeResult, renderScoped, primaryValue]

/-- Witness for C8 at a concrete input: a `beforeCreate` callback
resolving with a config value has no effect on the carried config. -/
theorem hook_beforeCreate_informational_witness :
    (∀ cp2 : CreateParams, cp2 = ⟨cp2.config⟩) ∧
    RetOf .beforeCreate = Unit ∧
    dispatch (regOnly .beforeCreate cbWrong) .beforeCreate (.createP cp0) =
      .ok (.vconfig cp0.config) :=
  hook_beforeCreate_informational (regOnly .beforeCreate cbWrong) cbWrong cp0
    (.vconfig cfg0) rfl rfl

/-- Claim C9: at a hook point expecting a typed (string) return, a
callback resolving with a wrong-shape value makes dispatch fail with
`HookContractError`, and the wrong value never becomes the effective
value. -/
theorem hook_wrong_shape_contract_error (r : Registry) (p : HookPoint)
    (cb : Hook) (payload : Payload) (v : Value)
    (hs : renderScoped p = true)
    (hr : r.get p = some cb)
    (hc : cb payload = .resolves v)
    (hnstr : ∀ s, v ≠ .vstr s)
    (hnundefined : v ≠ .vundefined) :
    dispatch r p payload = .error (.hookContractError p) ∧
    dispatch r p payload ≠ .ok v := by
  have hm : mergeResult p payload v = .error (.hookContractError p) := by
    cases v with
    | vstr s => exact absurd rfl (hnstr s)
    | vundefined => exact absurd rfl hnundefined
    | vconfig c => simp [mergeResult, hs]
    | vfiles fs => simp [mergeResult, hs]
    | vother o => simp [mergeResult, hs]
  constructor
  · simp [dispatch, hr, hc, hm]
  · simp [dispatch, hr, hc, hm]

/-- Witness for C9 at a concrete input: a `beforeRender` callback
resolving with a `Config` where a string is expected triggers
`HookContractError`. -/
theorem hook_wrong_shape_contract_error_witness :
    dispatch (regOnly .beforeRender cbWrong) .beforeRender (.renderP rp0) =
      .error (.hookContractError .beforeRender) ∧
    dispatch (regOnly .beforeRender cbWrong) .beforeRender (.renderP rp0) ≠
      .ok (.vconfig cfg0) :=
  hook_wrong_shape_contract_error (regOnly .beforeRender cbWrong) .beforeRender
    cbWrong (.renderP rp0) (.vconfig cfg0) rfl rfl rfl (fun s => by simp)
    (by simp)

/-- Claim C10: by the declared callback types, every render-scoped hook
returns a string — the declaration admits no void resolution, so a
type-conforming render-scoped hook always produces a replacement
value. -/
theorem hook_render_typed_always_string :
    RetOf .beforeRender = String ∧
    RetOf .afterRender = String ∧
    RetOf .afterTransformers = String ∧
    declaredReturn .beforeRender = .stringRet ∧
    declaredReturn .afterRender = .stringRet ∧
    declaredReturn .afterTransformers = .stringRet ∧
    (∀ (cb : RenderParams → String) (rp : RenderParams),
      Value.vstr (cb rp) ≠ Value.vundefined ∧ ∃ s : String, cb rp = s) :=
  ⟨rfl, rfl, rfl, rfl, rfl, rfl, fun cb rp => ⟨by simp, ⟨cb rp, rfl⟩⟩⟩
